import Mathlib

/-!
Shallow embedding of the `APIMonitor` userscript
(`src/api-monitor-standalone.js`, two near-duplicate class variants) and
proofs about its capture gate, bounded persisted log, lifecycle wrapping,
URL/payload parsing, storage round-trip, download, clear, and event bus.

Modelling conventions:
* JS strings are Lean `String`; the string primitives used by the source
  (`includes`, `startsWith`, `substring`/`lastIndexOf`, the WHATWG `URL`
  constructor) are given executable models below, over `List Char` so that
  concrete instances reduce in the kernel.
* `JSON.stringify`/`JSON.parse` on the captured-records array (host
  primitives, mutually inverse on plain data arrays) are modelled as the
  identity codec: `localStorage` is a key-value map from keys directly to
  record lists, `none` meaning the key is absent.
* `JSON.parse` applied to arbitrary request/response payload strings
  (`parseData`) is kept abstract as a parameter `jsonParse : String →
  Option JSVal`, `none` modelling a thrown parse error.
* Capture records are abstracted to an arbitrary type `α` (their contents
  are irrelevant to the claims about production, retention and round-trip).
-/

namespace APIMonitorModel

/-! ### Models of the JS string primitives used by the source -/

/-- `hasInfix s pat = true` iff `pat` occurs as a contiguous sublist of `s`. -/
def hasInfix (s pat : List Char) : Bool :=
  match s with
  | [] => pat.isEmpty
  | _ :: t => pat.isPrefixOf s || hasInfix t pat

/-- Model of JS `String.prototype.includes`: `jsIncludes s pat` is true iff
`pat` occurs as a contiguous substring of `s`. -/
def jsIncludes (s pat : String) : Bool :=
  hasInfix s.toList pat.toList

/-- Model of JS `String.prototype.startsWith`. -/
def jsStartsWith (s pre : String) : Bool :=
  pre.toList.isPrefixOf s.toList

/-! ### URL Classifier (`APIMonitor.parseURL`, source lines 649-675 / 1466-1492) -/

/-- The current page location: `window.location.hostname` and
`window.location.pathname`. -/
structure Loc where
  hostname : String
  pathname : String
deriving DecidableEq

/-- The pair `{ domain, path }` returned by `parseURL`. -/
structure URLInfo where
  domain : String
  path : String
deriving DecidableEq

/-- Splits `host[:port]path[?query][#fragment]` (the part of an absolute URL
after `scheme://`) into hostname and pathname, `none` when the host part is
empty (`new URL` throws there).  The pathname defaults to `"/"` as in WHATWG
parsing.  Scope: this models the host URL parser only on
`scheme://host[:digits…]path` shaped inputs, which covers every input any
theorem below evaluates it on. -/
def urlHostPath (rest : List Char) : Option (List Char × List Char) :=
  let host := rest.takeWhile fun c => c != '/' && c != '?' && c != '#' && c != ':'
  if host.isEmpty then none
  else
    let post := rest.drop host.length
    let post2 :=
      match post with
      | ':' :: t => t.dropWhile Char.isDigit
      | _ => post
    let p := post2.takeWhile fun c => c != '?' && c != '#'
    some (host, if p.isEmpty then ['/'] else p)

/-- Model of `new URL(url)` followed by reading `.hostname` and `.pathname`,
restricted to `http://` / `https://` URLs (the only ones the source's
`url.startsWith('http')` branch feeds it, within scope of the theorems
below); `none` models a thrown `TypeError`. -/
def urlParseList (l : List Char) : Option (List Char × List Char) :=
  if "https://".toList.isPrefixOf l then urlHostPath (l.drop 8)
  else if "http://".toList.isPrefixOf l then urlHostPath (l.drop 7)
  else none

/-- String-level wrapper of `urlParseList`. -/
def urlParse (s : String) : Option URLInfo :=
  match urlParseList s.toList with
  | some (d, p) => some ⟨⟨d⟩, ⟨p⟩⟩
  | none => none

/-- Standard-URL parsing for an arbitrary scheme `letters://host…`.  This is
NOT part of the source; it renders the spec claim's words "an absolute URL
(one having a scheme), domain = the parsed host" so the claim can be
compared against what `parseURL` actually computes. -/
def urlParseAny (s : String) : Option URLInfo :=
  let l := s.toList
  let scheme := l.takeWhile Char.isAlpha
  if scheme.isEmpty then none
  else if "://".toList.isPrefixOf (l.drop scheme.length) then
    match urlHostPath (l.drop (scheme.length + 3)) with
    | some (d, p) => some ⟨⟨d⟩, ⟨p⟩⟩
    | none => none
  else none

/-- Model of `currentPath.substring(0, currentPath.lastIndexOf('/') + 1)`:
the prefix of `p` up to and including its last `'/'`, empty when `p`
contains no `'/'`. -/
def basePath (p : String) : String :=
  ⟨(p.toList.reverse.dropWhile fun c => c != '/').reverse⟩

/-- `APIMonitor.parseURL(url)`: if `url.startsWith('http')`, parse with
`new URL` (on a throw, fall back to `{ domain: hostname || 'unknown',
path: url }`); else if it starts with `'/'`, keep it as the path; else
resolve it against the directory of the current page path.  The non-`http`
branches use only non-throwing string operations, so the source's
`try`/`catch` is reached only from the `new URL` call. -/
def parseURL (loc : Loc) (url : String) : URLInfo :=
  if jsStartsWith url "http" then
    match urlParse url with
    | some info => info
    | none => ⟨if loc.hostname = "" then "unknown" else loc.hostname, url⟩
  else if jsStartsWith url "/" then
    ⟨loc.hostname, url⟩
  else
    ⟨loc.hostname, basePath loc.pathname ++ url⟩

/-! ### Capture gate (`xhr.send` wrappers; source lines 290-325 and 1302-1330) -/

/-- The two config lists the gate reads. -/
structure GateConfig where
  targetPaths : List String
  allowedDomains : List String
deriving DecidableEq

/-- `this.config.targetPaths.some(path => xhr._url.includes(path))` — note
the substring test runs against the FULL url string, not its path
component. -/
def hasTargetPath (cfg : GateConfig) (url : String) : Bool :=
  cfg.targetPaths.any fun p => jsIncludes url p

/-- `this.config.allowedDomains.length === 0 ||
this.config.allowedDomains.some(domain => urlInfo.domain.includes(domain))`
where `urlInfo = parseURL(url)`. -/
def hasAllowedDomain (cfg : GateConfig) (loc : Loc) (url : String) : Bool :=
  cfg.allowedDomains.isEmpty ||
    cfg.allowedDomains.any fun d => jsIncludes (parseURL loc url).domain d

/-- Gate of the first variant's `xhr.send` (lines 290-325):
`xhr._url && typeof xhr._url === 'string' && hasTargetPath &&
hasAllowedDomain`; on the string model the truthiness conjunct is
`url ≠ ""`. -/
def xhrCapturesV1 (cfg : GateConfig) (loc : Loc) (url : String) : Bool :=
  url != "" && hasTargetPath cfg url && hasAllowedDomain cfg loc url

/-- Gate of the second variant's `xhr.send` (lines 1302-1330): it computes
only `hasTargetPath` and never consults `allowedDomains`. -/
def xhrCapturesV2 (cfg : GateConfig) (url : String) : Bool :=
  url != "" && hasTargetPath cfg url

/-- Completion of one matched request attempt through the first variant:
when the send-time gate passes, the attached `load` listener commits exactly
one record (abstracted here to the request's url) to the log; otherwise the
log is untouched. -/
def xhrSendCompleteV1 (cfg : GateConfig) (loc : Loc) (url : String)
    (log : List String) : List String :=
  if xhrCapturesV1 cfg loc url then log ++ [url] else log

/-- Completion of one matched request attempt through the second variant. -/
def xhrSendCompleteV2 (cfg : GateConfig) (url : String)
    (log : List String) : List String :=
  if xhrCapturesV2 cfg url then log ++ [url] else log

/-- The gate as the claim words it ("some entry of targetPaths is a
substring of the request URL's PATH and the domain gate passes").  This is
NOT the source's gate; it exists to be compared against it. -/
def specGateClaim (cfg : GateConfig) (loc : Loc) (url : String) : Bool :=
  (cfg.targetPaths.any fun p => jsIncludes (parseURL loc url).path p) &&
    (cfg.allowedDomains.isEmpty ||
      cfg.allowedDomains.any fun d => jsIncludes (parseURL loc url).domain d)

/-! ### Bounded log insert (`APIMonitor.saveRequest` trim, lines 706-724 / 1523-1539) -/

/-- Model of JS `arr.slice(-n)` for a non-negative count `n`.  For `n ≥ 1`
it keeps the last `min n arr.length` elements; for `n = 0` JS evaluates
`slice(-0) = slice(0)`, which returns the WHOLE array, so the `n = 0` case
returns `l` unchanged. -/
def jsSliceLast (n : Nat) (l : List α) : List α :=
  if n = 0 then l else l.drop (l.length - n)

/-- The log-trimming core of `saveRequest`: push the record
(`log ++ [r]`), then `if (length > maxStoredRequests)
slice(-maxStoredRequests)`. -/
def saveRequestLog (maxStored : Nat) (log : List α) (r : α) : List α :=
  if maxStored < (log ++ [r]).length then jsSliceLast maxStored (log ++ [r])
  else log ++ [r]

/-! ### Lifecycle and primitive wrapping (`start`/`stop`, lines 235-269;
`interceptXHR`, lines 271-330; `interceptAllNetworkRequests`, lines 536-586)

`window.XMLHttpRequest` is monkey-patched by reassignment; each patch wraps
whatever constructor is currently installed, with no marker guard.  The
chain of installed wrappers is modelled by `XHRChain`: `recWrap` is one
application of `interceptXHR` (its `send` attaches, per matched request, one
`load` listener that calls `saveRequest`), `obsWrap` is one application of
the XHR rewrite inside `interceptAllNetworkRequests` (log-only: its `send`
just delegates and never records).  A completed matched request therefore
commits one record per `recWrap` layer in the installed chain. -/

inductive XHRChain where
  | orig : XHRChain
  | recWrap : XHRChain → XHRChain
  | obsWrap : XHRChain → XHRChain
deriving DecidableEq

/-- Monitor lifecycle state: the `isMonitoring` flag and the currently
installed `window.XMLHttpRequest`. -/
structure LifeState where
  isMonitoring : Bool
  xhrCtor : XHRChain
deriving DecidableEq

/-- `start()`: no-op when already monitoring; otherwise installs the
recording XHR wrapper (`interceptXHR`) and then the log-only wrapper
(`interceptAllNetworkRequests`) over it, and sets the flag.  Neither
installation checks whether the constructor is already wrapped. -/
def startMonitor (s : LifeState) : LifeState :=
  if s.isMonitoring then s
  else { isMonitoring := true,
         xhrCtor := XHRChain.obsWrap (XHRChain.recWrap s.xhrCtor) }

/-- `stop()`: no-op when not monitoring; otherwise disconnects observers and
clears the flag.  It does NOT unwrap the patched constructor. -/
def stopMonitor (s : LifeState) : LifeState :=
  if !s.isMonitoring then s else { s with isMonitoring := false }

/-- Number of recording layers in the installed constructor chain = number
of records committed when one matched request completes (each recording
layer's `send` attaches its own `load` listener calling `saveRequest`). -/
def recListenerLayers : XHRChain → Nat
  | XHRChain.orig => 0
  | XHRChain.recWrap c => recListenerLayers c + 1
  | XHRChain.obsWrap c => recListenerLayers c

/-- A freshly loaded page: native constructor, monitor not running. -/
def freshPage : LifeState :=
  { isMonitoring := false, xhrCtor := XHRChain.orig }

/-! ### Payload parsing (`APIMonitor.parseData`, lines 677-688 / 1494-1505) -/

/-- JS values as far as `parseData` discriminates them.  `vArr` stands for
any object-like (always truthy) composite value. -/
inductive JSVal where
  | vNull : JSVal
  | vUndef : JSVal
  | vBool : Bool → JSVal
  | vNum : Int → JSVal
  | vStr : String → JSVal
  | vArr : List JSVal → JSVal

/-- JS truthiness on `JSVal`. -/
def truthy : JSVal → Bool
  | JSVal.vNull => false
  | JSVal.vUndef => false
  | JSVal.vBool b => b
  | JSVal.vNum n => n != 0
  | JSVal.vStr s => s != ""
  | JSVal.vArr _ => true

/-- `parseData(data)`: `if (!data) return null;` then for strings try
`JSON.parse` (abstracted as `jsonParse`, `none` modelling a throw) falling
back to the original string, and return any other value unchanged. -/
def parseData (jsonParse : String → Option JSVal) (data : JSVal) : JSVal :=
  if !truthy data then JSVal.vNull
  else
    match data with
    | JSVal.vStr s => (jsonParse s).getD (JSVal.vStr s)
    | v => v

/-! ### Persisted log and controller operations (lines 188-196, 706-785) -/

/-- `localStorage`, with the records-array JSON codec folded away (see the
header comment): keys map directly to record lists; an absent key is
`none`.  (`getItem` returning the empty string — impossible for
`JSON.stringify` output — is not represented.) -/
abbrev Storage (α : Type) := List (String × List α)

/-- `localStorage.setItem`: upsert. -/
def setItem (st : Storage α) (k : String) (v : List α) : Storage α :=
  match st with
  | [] => [(k, v)]
  | (k2, v2) :: t => if k2 = k then (k, v) :: t else (k2, v2) :: setItem t k v

/-- `localStorage.getItem`. -/
def getItem (st : Storage α) (k : String) : Option (List α) :=
  match st with
  | [] => none
  | (k2, v2) :: t => if k2 = k then some v2 else getItem t k

/-- The configuration fields the persisted log reads. -/
structure StoreConfig where
  storageKey : String
  maxStoredRequests : Nat
deriving DecidableEq

/-- Monitor state relevant to the log: its config and `capturedRequests`. -/
structure MState (α : Type) where
  config : StoreConfig
  capturedRequests : List α
deriving DecidableEq

/-- Events dispatched by `triggerEvent`. -/
inductive MonitorEvent (α : Type) where
  | requestCaptured : α → MonitorEvent α
  | dataCleared : MonitorEvent α
deriving DecidableEq

/-- `loadFromStorage()`: replace `capturedRequests` with the parsed stored
array when the key is present, else leave it as it is.  No trimming. -/
def loadFromStorage (cfg : StoreConfig) (st : Storage α) (current : List α) :
    List α :=
  match getItem st cfg.storageKey with
  | some l => l
  | none => current

/-- The constructor: `capturedRequests = []` then `loadFromStorage()`
(`init()` touches only lifecycle/UI, never the log). -/
def newMonitor (cfg : StoreConfig) (st : Storage α) : MState α :=
  { config := cfg, capturedRequests := loadFromStorage cfg st [] }

/-- `saveToStorage()`: mirror the in-memory log to storage under the
configured key. -/
def saveToStorage (m : MState α) (st : Storage α) : Storage α :=
  setItem st m.config.storageKey m.capturedRequests

/-- `saveRequest(data)`: push + trim (see `saveRequestLog`), mirror to
storage, then emit `requestCaptured` once.  Returns (new monitor state, new
storage, events emitted before returning). -/
def saveRequest (m : MState α) (st : Storage α) (r : α) :
    MState α × Storage α × List (MonitorEvent α) :=
  let m2 : MState α :=
    { m with capturedRequests :=
        saveRequestLog m.config.maxStoredRequests m.capturedRequests r }
  (m2, saveToStorage m2 st, [MonitorEvent.requestCaptured r])

/-- `clear()`: empty the log, mirror to storage, emit `dataCleared` once
(the UI refresh it also does has no effect on log, storage or events). -/
def clear (m : MState α) (st : Storage α) :
    MState α × Storage α × List (MonitorEvent α) :=
  let m2 : MState α := { m with capturedRequests := [] }
  (m2, saveToStorage m2 st, [MonitorEvent.dataCleared])

/-- `getRequests()`: `[...this.capturedRequests]` — a copy, equal as a list
to the log. -/
def getRequests (m : MState α) : List α := m.capturedRequests

/-- `download()`: when the log is empty, log a warning and return emitting
nothing; otherwise emit `JSON.stringify(capturedRequests, null, 2)` as a
file (the emitted records array, with the JSON codec folded away, is the
first component).  The monitor state is returned unchanged in both cases. -/
def download (m : MState α) : Option (List α) × MState α :=
  if m.capturedRequests.isEmpty then (none, m)
  else (some m.capturedRequests, m)

/-! ### Event bus (`triggerEvent`/`on`/`off`, lines 1113-1128 / 1896-1911) -/

/-- A listener registered on `window`, with JS function identity made
explicit: `wrapped cb` is the fresh arrow-function closure
`(event) => callback(event.detail)` that `on` creates around the user
callback `cb`; `raw cb` is the user callback object itself.  `wrapped cb`
and `raw cb` are distinct function objects even for the same `cb`. -/
inductive JsListener where
  | wrapped : Nat → JsListener
  | raw : Nat → JsListener
deriving DecidableEq

/-- The listener table of `window`, in registration order. -/
abbrev EventTarget := List (String × JsListener)

/-- `window.addEventListener(type, listener)`.  (JS would ignore a
re-registration of the identical listener object; `on` only ever registers
brand-new closures, so that case never arises from this code.) -/
def addEventListener (tgt : EventTarget) (k : String) (l : JsListener) :
    EventTarget :=
  tgt ++ [(k, l)]

/-- `window.removeEventListener(type, listener)`: removes the registration
whose listener is the very same function object. -/
def removeEventListener (tgt : EventTarget) (k : String) (l : JsListener) :
    EventTarget :=
  tgt.filter fun e => !(e.1 == k && e.2 == l)

/-- Event names are namespaced as `apiMonitor:<name>`. -/
def eventKey (name : String) : String := "apiMonitor:" ++ name

/-- `on(eventName, callback)` (source name `on`, a reserved word here):
registers a FRESH wrapper closure around `callback`. -/
def onEvent (tgt : EventTarget) (name : String) (cb : Nat) : EventTarget :=
  addEventListener tgt (eventKey name) (JsListener.wrapped cb)

/-- `off(eventName, callback)` (source name `off`): asks removal of
`callback` itself — which was never the registered listener object. -/
def offEvent (tgt : EventTarget) (name : String) (cb : Nat) : EventTarget :=
  removeEventListener tgt (eventKey name) (JsListener.raw cb)

/-- `triggerEvent(eventName)` (dispatch): the user callbacks invoked, in
registration order — a `wrapped cb` listener forwards to `cb`, a `raw cb`
listener is `cb`. -/
def dispatch (tgt : EventTarget) (name : String) : List Nat :=
  tgt.filterMap fun e =>
    if e.1 == eventKey name then
      some (match e.2 with | JsListener.wrapped cb => cb | JsListener.raw cb => cb)
    else none

/-! ### Concrete inputs used by counterexamples and witnesses -/

/-- A current page location used in concrete evaluations. -/
def pageLoc : Loc := { hostname := "page.example", pathname := "/dir/index.html" }

/-- Gate config with a path filter and no domain restriction. -/
def cfgNoDomains : GateConfig := { targetPaths := ["/api"], allowedDomains := [] }

/-- Gate config with a path filter and a domain restriction. -/
def cfgWithDomain : GateConfig :=
  { targetPaths := ["/api"], allowedDomains := ["example.com"] }

/-- A JSON parser model that fails on every input. -/
def jsonParseFail : String → Option JSVal := fun _ => none

/-- A JSON parser model that succeeds with `true` on every input. -/
def jsonParseTrue : String → Option JSVal := fun _ => some (JSVal.vBool true)

/-- Store config with capacity 0 (degenerate). -/
def cfgCap0 : StoreConfig := { storageKey := "k", maxStoredRequests := 0 }

/-- Store config with capacity 1. -/
def cfgCap1 : StoreConfig := { storageKey := "k", maxStoredRequests := 1 }

/-- A monitor state with a non-empty log. -/
def mNonEmpty : MState String := { config := cfgCap1, capturedRequests := ["A"] }

/-! ### Shared helper lemmas -/

theorem hasInfix_iff (s pat : List Char) : hasInfix s pat = true ↔ pat <:+: s := by
  induction s with
  | nil =>
    simp only [hasInfix, List.isEmpty_iff]
    constructor
    · intro h; simp [h]
    · intro h; exact List.eq_nil_of_infix_nil h
  | cons a t ih =>
    simp only [hasInfix, Bool.or_eq_true, List.isPrefixOf_iff_prefix, ih]
    exact (List.infix_cons_iff).symm

theorem jsIncludes_iff (s pat : String) :
    jsIncludes s pat = true ↔ pat.toList <:+: s.toList :=
  hasInfix_iff s.toList pat.toList

theorem getItem_setItem (st : Storage α) (k : String) (v : List α) :
    getItem (setItem st k v) k = some v := by
  induction st with
  | nil => simp [setItem, getItem]
  | cons e t ih =>
    by_cases h : e.1 = k
    · simp [setItem, getItem, h]
    · simp [setItem, getItem, h, ih]

theorem append_singleton_ne (log : List α) (r : α) : log ++ [r] ≠ log := by
  intro h
  have hl := congrArg List.length h
  simp at hl

theorem xhrCapturesV1_iff (cfg : GateConfig) (loc : Loc) (url : String) :
    xhrCapturesV1 cfg loc url = true ↔
      url ≠ "" ∧ (∃ p ∈ cfg.targetPaths, p.toList <:+: url.toList) ∧
        (cfg.allowedDomains = [] ∨
          ∃ d ∈ cfg.allowedDomains, d.toList <:+: (parseURL loc url).domain.toList) := by
  simp only [xhrCapturesV1, hasTargetPath, hasAllowedDomain, Bool.and_eq_true,
    Bool.or_eq_true, List.any_eq_true, jsIncludes_iff, bne_iff_ne, ne_eq,
    List.isEmpty_iff, and_assoc]

theorem xhrCapturesV2_iff (cfg : GateConfig) (url : String) :
    xhrCapturesV2 cfg url = true ↔
      url ≠ "" ∧ ∃ p ∈ cfg.targetPaths, p.toList <:+: url.toList := by
  simp only [xhrCapturesV2, hasTargetPath, Bool.and_eq_true, List.any_eq_true,
    jsIncludes_iff, bne_iff_ne, ne_eq]

theorem xhrSendCompleteV1_ne_iff (cfg : GateConfig) (loc : Loc) (url : String)
    (log : List String) :
    xhrSendCompleteV1 cfg loc url log ≠ log ↔ xhrCapturesV1 cfg loc url = true := by
  unfold xhrSendCompleteV1
  by_cases h : xhrCapturesV1 cfg loc url = true
  · simp only [h, if_true, iff_true]
    exact append_singleton_ne log url
  · simp [h]

theorem xhrSendCompleteV2_ne_iff (cfg : GateConfig) (url : String)
    (log : List String) :
    xhrSendCompleteV2 cfg url log ≠ log ↔ xhrCapturesV2 cfg url = true := by
  unfold xhrSendCompleteV2
  by_cases h : xhrCapturesV2 cfg url = true
  · simp only [h, if_true, iff_true]
    exact append_singleton_ne log url
  · simp [h]

theorem saveRequestLog_length (maxStored : Nat) (h : 1 ≤ maxStored)
    (log : List α) (r : α) :
    (saveRequestLog maxStored log r).length = min (log.length + 1) maxStored := by
  unfold saveRequestLog jsSliceLast
  split
  next hc =>
    split
    next h0 => omega
    next h0 =>
      simp only [List.length_drop] at hc ⊢
      simp at hc ⊢
      omega
  next hc =>
    simp at hc ⊢
    omega

theorem saveRequestLog_drop (maxStored : Nat) (h : 1 ≤ maxStored)
    (log : List α) (r : α) :
    saveRequestLog maxStored log r = (log ++ [r]).drop (log.length + 1 - maxStored) := by
  unfold saveRequestLog jsSliceLast
  split
  next hc =>
    split
    next h0 => omega
    next h0 => simp
  next hc =>
    simp at hc
    have h0 : log.length + 1 - maxStored = 0 := by omega
    simp [h0]

/-! ### Claim theorems -/

/-- Claim C1, counterexample.  The claim reads the target-path test as
"some entry of targetPaths is a substring of the request URL's PATH", and
asserts capture happens iff that conjunction with the domain gate holds.
Both parts fail on the source: (a) with `targetPaths = ["/api"]` and no
domain restriction, the url `https://example.com/foo?q=/api` — whose path
is `/foo` — IS captured by the first variant (the source tests the full url
string), while the claim's gate is false there; (b) the second variant's
`xhr.send` never consults `allowedDomains`, so with
`allowedDomains = ["example.com"]` a request to
`https://other.com/api` produces a record although its domain matches no
entry of the non-empty allowedDomains. -/
theorem gate_claim_counterexample :
    xhrSendCompleteV1 cfgNoDomains pageLoc "https://example.com/foo?q=/api" [] ≠ [] ∧
    specGateClaim cfgNoDomains pageLoc "https://example.com/foo?q=/api" = false ∧
    xhrSendCompleteV2 cfgWithDomain "https://other.com/api" [] ≠ [] ∧
    cfgWithDomain.allowedDomains ≠ [] ∧
    hasAllowedDomain cfgWithDomain pageLoc "https://other.com/api" = false := by
  decide

/-- Claim C1 (amended): a record is produced by the first variant's XHR
interception iff the url is a nonempty string, some targetPaths entry is a
substring of the FULL url string, and (allowedDomains is empty or some
entry is a substring of the resolved domain); the second variant omits the
domain conjunct entirely; with empty targetPaths nothing is ever captured
by either variant; and in the first variant a non-matching non-empty
allowedDomains prevents capture. -/
theorem xhr_gate_characterization (cfg : GateConfig) (loc : Loc) (url : String)
    (log : List String) :
    (xhrSendCompleteV1 cfg loc url log ≠ log ↔
      url ≠ "" ∧ (∃ p ∈ cfg.targetPaths, p.toList <:+: url.toList) ∧
        (cfg.allowedDomains = [] ∨
          ∃ d ∈ cfg.allowedDomains, d.toList <:+: (parseURL loc url).domain.toList)) ∧
    (xhrSendCompleteV2 cfg url log ≠ log ↔
      url ≠ "" ∧ ∃ p ∈ cfg.targetPaths, p.toList <:+: url.toList) ∧
    (cfg.targetPaths = [] →
      xhrSendCompleteV1 cfg loc url log = log ∧
      xhrSendCompleteV2 cfg url log = log) ∧
    (cfg.allowedDomains ≠ [] →
      (∀ d ∈ cfg.allowedDomains, ¬(d.toList <:+: (parseURL loc url).domain.toList)) →
      xhrSendCompleteV1 cfg loc url log = log) := by
  refine ⟨?_, ?_, ?_, ?_⟩
  · exact (xhrSendCompleteV1_ne_iff cfg loc url log).trans (xhrCapturesV1_iff cfg loc url)
  · exact (xhrSendCompleteV2_ne_iff cfg url log).trans (xhrCapturesV2_iff cfg url)
  · intro hT
    constructor
    · by_contra hne
      rcases ((xhrSendCompleteV1_ne_iff cfg loc url log).trans
        (xhrCapturesV1_iff cfg loc url)).mp hne with ⟨-, ⟨p, hp, -⟩, -⟩
      rw [hT] at hp
      exact absurd hp (List.not_mem_nil p)
    · by_contra hne
      rcases ((xhrSendCompleteV2_ne_iff cfg url log).trans
        (xhrCapturesV2_iff cfg url)).mp hne with ⟨-, ⟨p, hp, -⟩⟩
      rw [hT] at hp
      exact absurd hp (List.not_mem_nil p)
  · intro hA hmiss
    by_contra hne
    rcases ((xhrSendCompleteV1_ne_iff cfg loc url log).trans
      (xhrCapturesV1_iff cfg loc url)).mp hne with ⟨-, -, hdom⟩
    rcases hdom with hnil | ⟨d, hd, hinf⟩
    · exact hA hnil
    · exact hmiss d hd hinf

/-- Claim C1, witness for the amended theorem: with empty targetPaths a
matched-looking request is not captured by either variant, and with
`allowedDomains = ["example.com"]` a request to `https://other.com/api` is
not captured by the first variant. -/
theorem xhr_gate_characterization_witness :
    xhrSendCompleteV1 ⟨[], ["example.com"]⟩ pageLoc "https://example.com/api" [] = [] ∧
    xhrSendCompleteV1 cfgWithDomain pageLoc "https://other.com/api" [] = [] := by
  refine ⟨((xhr_gate_characterization ⟨[], ["example.com"]⟩ pageLoc
    "https://example.com/api" []).2.2.1 rfl).1, ?_⟩
  exact (xhr_gate_characterization cfgWithDomain pageLoc
    "https://other.com/api" []).2.2.2 (by decide) (by decide)

/-- Claim C2, counterexample.  With `maxStoredRequests = 0` a single insert
leaves a log of length 1 > 0: JS evaluates `slice(-0)` as `slice(0)`, which
keeps the whole array, so the claimed bound `length(log) ≤ maxStoredRequests`
fails. -/
theorem saveRequest_zero_capacity_counterexample :
    (saveRequestLog 0 ([] : List String) "A").length = 1 ∧
    ¬((saveRequestLog 0 ([] : List String) "A").length ≤ 0) := by
  decide

/-- Claim C2 (amended): provided `maxStoredRequests ≥ 1`, after every
insert the log length is `min (previous + 1) maxStoredRequests` — hence at
most `maxStoredRequests` — and the resulting log is exactly the most recent
suffix of the pushed sequence (oldest records evicted first).  (For
`maxStoredRequests = 0` the bound fails, see the counterexample.)  The
scenario `maxStoredRequests = 2`, inserts A, B, C giving `[B, C]` is checked
in the witness. -/
theorem saveRequest_capacity (α : Type) (maxStored : Nat) (h : 1 ≤ maxStored)
    (log : List α) (r : α) :
    (saveRequestLog maxStored log r).length = min (log.length + 1) maxStored ∧
    saveRequestLog maxStored log r = (log ++ [r]).drop (log.length + 1 - maxStored) :=
  ⟨saveRequestLog_length maxStored h log r, saveRequestLog_drop maxStored h log r⟩

/-- Claim C2, witness: three inserts A, B, C at capacity 2 end in `[B, C]`,
and the theorem instance at the third insert. -/
theorem saveRequest_capacity_witness :
    1 ≤ 2 ∧
    saveRequestLog 2 (saveRequestLog 2 (saveRequestLog 2 ([] : List String) "A") "B") "C"
      = ["B", "C"] ∧
    (saveRequestLog 2 (["A", "B"] : List String) "C").length =
      min ((["A", "B"] : List String).length + 1) 2 ∧
    saveRequestLog 2 (["A", "B"] : List String) "C" =
      ((["A", "B"] : List String) ++ ["C"]).drop ((["A", "B"] : List String).length + 1 - 2) :=
  ⟨by decide, by decide,
    (saveRequest_capacity String 2 (by decide) ["A", "B"] "C").1,
    (saveRequest_capacity String 2 (by decide) ["A", "B"] "C").2⟩

/-- Claim C3: evaluation at the failing input.  `start()` twice in
succession is indeed a no-op the second time (same wrapped state), and a
single `start()` installs exactly one recording layer — one record per
matched completion.  But after `start(); stop(); start()` the already
wrapped constructor is wrapped again (there is no marker guard), leaving
TWO recording layers: one subsequent matched request commits two records,
contradicting the claimed at-most-once invariant. -/
theorem start_stop_start_double_record :
    recListenerLayers (startMonitor freshPage).xhrCtor = 1 ∧
    startMonitor (startMonitor freshPage) = startMonitor freshPage ∧
    recListenerLayers (startMonitor (stopMonitor (startMonitor freshPage))).xhrCtor = 2 := by
  decide

/-- Claim C4, counterexample.  `ftp://files.example.com/pub/data.txt` is an
absolute URL with a scheme, whose standard parse yields host
`files.example.com`; but `parseURL` tests `url.startsWith('http')`, so it
treats it as a scheme-less relative url and resolves it against the current
page directory, returning the page host instead of the parsed host. -/
theorem parseURL_scheme_counterexample :
    urlParseAny "ftp://files.example.com/pub/data.txt" =
      some ⟨"files.example.com", "/pub/data.txt"⟩ ∧
    parseURL pageLoc "ftp://files.example.com/pub/data.txt" =
      ⟨"page.example", "/dir/ftp://files.example.com/pub/data.txt"⟩ ∧
    ("page.example" : String) ≠ "files.example.com" := by
  decide

/-- Claim C4 (amended): for every input url the classifier is total and:
if the url starts with `"http"` and the URL parser accepts it, domain and
path are the parsed host and path component; if it starts with `"http"`
and the parser throws, it falls back to domain = current page host (or
`"unknown"` when that is empty) and path = the raw input; if it does not
start with `"http"` (even when it has some other scheme) and does not
start with `/`, domain = current page host and path = the current page
path with its filename stripped concatenated with the url. -/
theorem parseURL_characterization (loc : Loc) (url : String) :
    (∀ info, jsStartsWith url "http" = true → urlParse url = some info →
      parseURL loc url = info) ∧
    (jsStartsWith url "http" = true → urlParse url = none →
      parseURL loc url =
        ⟨if loc.hostname = "" then "unknown" else loc.hostname, url⟩) ∧
    (jsStartsWith url "http" = false → jsStartsWith url "/" = false →
      parseURL loc url = ⟨loc.hostname, basePath loc.pathname ++ url⟩) := by
  refine ⟨?_, ?_, ?_⟩
  · intro info h1 h2; simp [parseURL, h1, h2]
  · intro h1 h2; simp [parseURL, h1, h2]
  · intro h1 h2; simp [parseURL, h1, h2]

/-- Claim C4, witness: a concrete absolute http URL lands in the first
branch with the parsed host and path. -/
theorem parseURL_characterization_witness :
    jsStartsWith "https://example.com/a/b?x=1" "http" = true ∧
    urlParse "https://example.com/a/b?x=1" = some ⟨"example.com", "/a/b"⟩ ∧
    parseURL pageLoc "https://example.com/a/b?x=1" = ⟨"example.com", "/a/b"⟩ :=
  ⟨by decide, by decide,
    (parseURL_characterization pageLoc "https://example.com/a/b?x=1").1
      ⟨"example.com", "/a/b"⟩ (by decide) (by decide)⟩

/-- Claim C5, counterexample.  `parseData` begins with
`if (!data) return null;`, so falsy payloads are replaced by `null`:
the non-string value `0` does not pass through unchanged, and the empty
string — a string JSON.parse rejects — is not returned unchanged either. -/
theorem parseData_falsy_counterexample :
    parseData jsonParseFail (JSVal.vNum 0) = JSVal.vNull ∧
    JSVal.vNum 0 ≠ JSVal.vNull ∧
    parseData jsonParseFail (JSVal.vStr "") = JSVal.vNull ∧
    JSVal.vStr "" ≠ JSVal.vNull :=
  ⟨rfl, fun h => JSVal.noConfusion h, rfl, fun h => JSVal.noConfusion h⟩

/-- Claim C5 (amended): every falsy payload (null, undefined, false, 0,
the empty string) is mapped to `null`; a truthy string is JSON-decoded,
falling back to the original string when decoding throws; every truthy
non-string passes through unchanged. -/
theorem parseData_characterization (jsonParse : String → Option JSVal) (v : JSVal) :
    (truthy v = false → parseData jsonParse v = JSVal.vNull) ∧
    (∀ s, v = JSVal.vStr s → truthy v = true →
      parseData jsonParse v = (jsonParse s).getD (JSVal.vStr s)) ∧
    (truthy v = true → (∀ s, v ≠ JSVal.vStr s) → parseData jsonParse v = v) := by
  refine ⟨?_, ?_, ?_⟩
  · intro h; simp [parseData, h]
  · intro s hs ht; subst hs; simp [parseData, ht]
  · intro ht hns
    cases v with
    | vStr s => exact absurd rfl (hns s)
    | vNull => simp [parseData, ht]
    | vUndef => simp [parseData, ht]
    | vBool b => simp [parseData, ht]
    | vNum n => simp [parseData, ht]
    | vArr l => simp [parseData, ht]

/-- Claim C5, witness: a truthy string is decoded through the JSON parser. -/
theorem parseData_characterization_witness :
    JSVal.vStr "x" = JSVal.vStr "x" ∧ truthy (JSVal.vStr "x") = true ∧
    parseData jsonParseTrue (JSVal.vStr "x") = (jsonParseTrue "x").getD (JSVal.vStr "x") :=
  ⟨rfl, rfl, (parseData_characterization jsonParseTrue (JSVal.vStr "x")).2.1 "x" rfl rfl⟩

/-- Claim C6: persistence round-trip.  After `saveRequest` (and after
`clear`) the storage under the configured key holds exactly the in-memory
log — every mutating operation mirrors the log to durable storage before
returning — and a monitor freshly constructed over that storage with the
same config restores exactly the persisted records in the same order. -/
theorem persistence_roundtrip (α : Type) (m : MState α) (st : Storage α) (r : α) :
    getItem (saveRequest m st r).2.1 m.config.storageKey =
      some ((saveRequest m st r).1.capturedRequests) ∧
    getRequests (newMonitor m.config (saveRequest m st r).2.1) =
      getRequests (saveRequest m st r).1 ∧
    getItem (clear m st).2.1 m.config.storageKey =
      some ((clear m st).1.capturedRequests) ∧
    getRequests (newMonitor m.config (clear m st).2.1) =
      getRequests (clear m st).1 := by
  refine ⟨?_, ?_, ?_, ?_⟩ <;>
    simp [saveRequest, clear, saveToStorage, newMonitor, loadFromStorage,
      getRequests, getItem_setItem]

/-- Claim C7: download round-trip.  For a non-empty log `download` emits
exactly the list `getRequests` returns (the emitted pretty-printed JSON,
re-parsed, is that list — the JSON codec is the identity in this model);
for an empty log it emits nothing; and in both cases the monitor state is
unchanged. -/
theorem download_roundtrip (α : Type) (m : MState α) :
    (m.capturedRequests ≠ [] → (download m).1 = some (getRequests m)) ∧
    (m.capturedRequests = [] → (download m).1 = none) ∧
    (download m).2 = m := by
  refine ⟨?_, ?_, ?_⟩
  · intro h
    simp [download, getRequests, List.isEmpty_iff, h]
  · intro h
    simp [download, h]
  · unfold download
    split <;> rfl

/-- Claim C7, witness: a monitor with log `["A"]` downloads `some ["A"]`. -/
theorem download_roundtrip_witness :
    mNonEmpty.capturedRequests ≠ [] ∧
    (download mNonEmpty).1 = some (getRequests mNonEmpty) :=
  ⟨by decide, (download_roundtrip String mNonEmpty).1 (by decide)⟩

/-- Claim C8: `clear()` on a monitor with a non-empty log empties the log,
persists the empty list under the storage key, emits `dataCleared` exactly
once, and afterwards `getRequests()` returns the empty list. -/
theorem clear_spec (α : Type) (m : MState α) (st : Storage α)
    (_h : m.capturedRequests ≠ []) :
    (clear m st).1.capturedRequests = [] ∧
    getItem (clear m st).2.1 m.config.storageKey = some [] ∧
    (clear m st).2.2 = [MonitorEvent.dataCleared] ∧
    getRequests (clear m st).1 = [] := by
  refine ⟨rfl, ?_, rfl, rfl⟩
  simp [clear, saveToStorage, getItem_setItem]

/-- Claim C8, witness. -/
theorem clear_spec_witness :
    mNonEmpty.capturedRequests ≠ [] ∧
    (clear mNonEmpty ([] : Storage String)).2.2 = [MonitorEvent.dataCleared] :=
  ⟨by decide, (clear_spec String mNonEmpty [] (by decide)).2.2.1⟩

/-- Claim C9, counterexample.  With `maxStoredRequests = 0` and storage
holding one record (M = 1 > 0), construction does restore all M records,
but the next `saveRequest` does NOT trim the log to `maxStoredRequests`:
`slice(-0)` keeps everything, so the log grows to length 2 instead of
being cut to 0. -/
theorem load_overflow_counterexample :
    getRequests (newMonitor cfgCap0 [("k", ["A"])]) = ["A"] ∧
    (saveRequest (newMonitor cfgCap0 [("k", ["A"])]) [("k", ["A"])] "B").1.capturedRequests
      = ["A", "B"] ∧
    ¬((["A", "B"] : List String).length ≤ cfgCap0.maxStoredRequests) := by
  decide

/-- Claim C9 (amended): the capacity bound is enforced only on insert,
never at load time — when storage holds M records with
M > maxStoredRequests, a freshly constructed monitor returns all M from
`getRequests()`; and provided `maxStoredRequests ≥ 1`, the next
`saveRequest` trims the log to exactly `maxStoredRequests` records. -/
theorem load_no_trim (α : Type) (cfg : StoreConfig) (st : Storage α)
    (l : List α) (r : α)
    (hst : getItem st cfg.storageKey = some l)
    (hM : cfg.maxStoredRequests < l.length)
    (hmax : 1 ≤ cfg.maxStoredRequests) :
    getRequests (newMonitor cfg st) = l ∧
    ((saveRequest (newMonitor cfg st) st r).1.capturedRequests).length =
      cfg.maxStoredRequests := by
  have hload : getRequests (newMonitor cfg st) = l := by
    simp [newMonitor, loadFromStorage, getRequests, hst]
  refine ⟨hload, ?_⟩
  have hcap : (saveRequest (newMonitor cfg st) st r).1.capturedRequests =
      saveRequestLog cfg.maxStoredRequests l r := by
    simp [saveRequest, newMonitor, loadFromStorage, hst]
  rw [hcap, saveRequestLog_length cfg.maxStoredRequests hmax l r]
  omega

/-- Claim C9, witness: capacity 1, storage holding `["A", "B"]`; the fresh
monitor restores both, the next insert trims to length 1. -/
theorem load_no_trim_witness :
    getItem ([("k", ["A", "B"])] : Storage String) cfgCap1.storageKey = some ["A", "B"] ∧
    cfgCap1.maxStoredRequests < (["A", "B"] : List String).length ∧
    1 ≤ cfgCap1.maxStoredRequests ∧
    getRequests (newMonitor cfgCap1 ([("k", ["A", "B"])] : Storage String)) = ["A", "B"] ∧
    ((saveRequest (newMonitor cfgCap1 ([("k", ["A", "B"])] : Storage String))
        ([("k", ["A", "B"])] : Storage String) "C").1.capturedRequests).length =
      cfgCap1.maxStoredRequests := by
  refine ⟨by decide, by decide, by decide, ?_, ?_⟩
  · exact (load_no_trim String cfgCap1 [("k", ["A", "B"])] ["A", "B"] "C"
      (by decide) (by decide) (by decide)).1
  · exact (load_no_trim String cfgCap1 [("k", ["A", "B"])] ["A", "B"] "C"
      (by decide) (by decide) (by decide)).2

/-- Claim C10: `off` cannot unregister what `on` registered.  `on` installs
a fresh wrapper closure as the window listener, while `off` asks removal of
the original callback object — which was never registered — so after
`on(e, cb)` followed by `off(e, cb)` the wrapper is still registered and a
subsequent emission of `e` still invokes `cb`. -/
theorem on_off_mismatch (tgt : EventTarget) (name : String) (cb : Nat) :
    (eventKey name, JsListener.wrapped cb) ∈ offEvent (onEvent tgt name cb) name cb ∧
    cb ∈ dispatch (offEvent (onEvent tgt name cb) name cb) name := by
  have hne : ((JsListener.wrapped cb : JsListener) == JsListener.raw cb) = false := by
    apply beq_eq_false_iff_ne.mpr
    intro h
    exact JsListener.noConfusion h
  have hmem : (eventKey name, JsListener.wrapped cb) ∈
      offEvent (onEvent tgt name cb) name cb := by
    unfold offEvent removeEventListener onEvent addEventListener
    apply List.mem_filter.mpr
    refine ⟨by simp, ?_⟩
    simp [hne]
  refine ⟨hmem, ?_⟩
  apply List.mem_filterMap.mpr
  exact ⟨(eventKey name, JsListener.wrapped cb), hmem, by simp⟩

end APIMonitorModel
